import Mathlib

/-!
Verification of the multi-knowledge-base RAG router and chat engine
(`app/multi_kb_rag.py`, `app/main.py`, `app/rag_pipeline.py`, `mcp_server.py`).

Shallow embedding conventions:
* Python strings used as KB names are modelled as `List Char` so that the
  character-wise normalization of `_normalize_collection_name` can be stated
  and proved pointwise; other strings stay `String`.
* Python dicts keyed by strings are modelled as association lists with
  first-match lookup; dict assignment is modelled by `aset` (insert replacing
  the old binding) which matches both Python dict update and Qdrant upsert
  (the point id is the key).
* Real-valued similarity / relevance scores are modelled as `ℚ`; the decimal
  literals of the source (0.4, 0.7, 0.1, ...) are exact rationals.
* External collaborators (Qdrant search, the LLM, the text splitter) enter
  the model as explicit inputs describing their observable outcome.
-/

/-- A Python string viewed as its character sequence. -/
abbrev PyStr := List Char

/-! ## Association-list primitives (model of Python `dict` / Qdrant point ids) -/

/-- First-match lookup, the model of Python `d[k]` / `d.get(k)`. -/
def alookup {α β : Type} [DecidableEq α] (k : α) : List (α × β) → Option β
  | [] => none
  | (k', v) :: t => if k' = k then some v else alookup k t

/-- Remove every binding of key `k` (model of Python `del d[k]`). -/
def aerase {α β : Type} [DecidableEq α] (k : α) : List (α × β) → List (α × β)
  | [] => []
  | p :: t => if p.1 = k then aerase k t else p :: aerase k t

/-- Insert-replacing-update, the model of Python `d[k] = v` and of a Qdrant
upsert of the point with id `k`. -/
def aset {α β : Type} [DecidableEq α] (k : α) (v : β) (l : List (α × β)) : List (α × β) :=
  (k, v) :: aerase k l

/-! ## Name normalization (`multi_kb_rag.py` lines 84-91) -/

/-- Model of Python `str.replace(a, b)` for single characters. -/
def replace_char (a b : Char) (s : PyStr) : PyStr :=
  s.map (fun c => if c = a then b else c)

/-- `_normalize_collection_name`: `name.lower().replace(" ", "_").replace("-", "_")`. -/
def normalize_collection_name (name : PyStr) : PyStr :=
  replace_char '-' '_' (replace_char ' ' '_' (name.map Char.toLower))

/-- `_get_collection_name`: the `kb_` prefixed normalized name. -/
def get_collection_name (kb_name : PyStr) : PyStr :=
  'k' :: 'b' :: '_' :: normalize_collection_name kb_name

/-- The three separator characters the spec treats as interchangeable. -/
def sep_like (c : Char) : Bool :=
  c = ' ' || c = '-' || c = '_'

/-- Two KB names differ only in letter case or in the separators
space / hyphen / underscore (character-wise). -/
def case_sep_equiv : PyStr → PyStr → Bool
  | [], [] => true
  | c₁ :: t₁, c₂ :: t₂ =>
      (Char.toLower c₁ = Char.toLower c₂ || (sep_like c₁ && sep_like c₂)) &&
        case_sep_equiv t₁ t₂
  | _, _ => false

/-! ## Router index (`multi_kb_rag.py` lines 106-147) -/

/-- Payload of one RouterEntry point (`_update_router_index`). -/
structure RouterPayload where
  kb_name : PyStr
  collection_name : PyStr
  description : String
  updated_at : Nat
deriving DecidableEq

/-- The Router Index collection: Qdrant points keyed by their id, which
`_update_router_index` sets to the prefixed collection name. -/
abbrev RouterIndex := List (PyStr × RouterPayload)

/-- `_update_router_index`: skip when the description is empty or the
placeholder, otherwise upsert the point with id `_get_collection_name(kb_name)`. -/
def update_router_index (now : Nat) (kb_name : PyStr) (description : String)
    (router : RouterIndex) : RouterIndex :=
  if description = "" ∨ description = "Auto-created collection" then router
  else
    aset (get_collection_name kb_name)
      { kb_name := kb_name
        collection_name := get_collection_name kb_name
        description := description
        updated_at := now } router

/-! ## Semantic routing (`multi_kb_rag.py` lines 40-41 and 697-752) -/

/-- `ROUTER_SIMILARITY_THRESHOLD = 0.4`. -/
def ROUTER_SIMILARITY_THRESHOLD : ℚ := 4/10

/-- One scored hit returned by the Qdrant nearest-neighbor search over the
Router Index (payload plus cosine-similarity score). -/
structure RouterHit where
  payload : RouterPayload
  score : ℚ
deriving DecidableEq

/-- `route_to_kb`, with the three external observations made explicit:
whether the Router Index collection exists, its point count, and the ranked
result list of the `limit=1` similarity search. -/
def route_to_kb (router_exists : Bool) (points_count : Nat)
    (search_result : List RouterHit) : Option (PyStr × ℚ) :=
  if !router_exists then none
  else if points_count = 0 then none
  else
    match search_result with
    | [] => none
    | best :: _ =>
        if best.score < ROUTER_SIMILARITY_THRESHOLD then none
        else some (best.payload.kb_name, best.score)

/-! ## Metadata extraction (`multi_kb_rag.py` lines 374-428,
`rag_pipeline.py` lines 103-147) -/

/-- Outcome of `json.loads` on the (fence-stripped) LLM output: parsing threw,
parsed to a non-object, or parsed to a JSON object (field/value bindings). -/
inductive LlmJson where
  | parseError : LlmJson
  | nonObject : LlmJson
  | obj : List (String × String) → LlmJson
deriving DecidableEq

/-- `required_fields = ["doc_type", "category", "status", "title"]`. -/
def required_fields : List String :=
  ["doc_type", "category", "status", "title"]

/-- Fallback record of `multi_kb_rag._extract_metadata_from_text`. -/
def default_metadata_multi_kb : List (String × String) :=
  [("doc_type", "Unknown"), ("category", "General"),
   ("status", "Published"), ("title", "Untitled Document")]

/-- Fallback record of `rag_pipeline._extract_metadata_from_text`. -/
def default_metadata_rag_pipeline : List (String × String) :=
  [("doc_type", "Unknown"), ("category", "Unknown"),
   ("status", "Unknown"), ("title", "N/A")]

/-- One iteration of the `for field in required_fields` loop:
`if field not in extracted_data: extracted_data[field] = "Unknown"`. -/
def add_if_missing (f : String) (acc : List (String × String)) :
    List (String × String) :=
  if (alookup f acc).isSome then acc else acc ++ [(f, "Unknown")]

/-- `multi_kb_rag._extract_metadata_from_text` after the LLM call: a parsed
object has its missing required fields filled with "Unknown"; a parse error or
a non-object result falls back to the complete default record. -/
def extract_metadata_multi_kb (parsed : LlmJson) : List (String × String) :=
  match parsed with
  | .obj fields => required_fields.foldl (fun acc f => add_if_missing f acc) fields
  | _ => default_metadata_multi_kb

/-- `rag_pipeline._extract_metadata_from_text` after the LLM call: a parsed
object is returned as-is; a parse error or non-object falls back to the
default record. -/
def extract_metadata_rag_pipeline (parsed : LlmJson) : List (String × String) :=
  match parsed with
  | .obj fields => fields
  | _ => default_metadata_rag_pipeline

/-- `_generate_smart_description` (`multi_kb_rag.py` lines 430-451). -/
def generate_smart_description (metadata : List (String × String))
    (filename : String) : String :=
  let doc_type := (alookup ("doc_type") metadata).getD "Unknown"
  let title := (alookup ("title") metadata).getD filename
  let category := (alookup ("category") metadata).getD "General"
  let status := (alookup ("status") metadata).getD ""
  let description := "[" ++ doc_type ++ "] " ++ title ++ " - Category: " ++ category
  if status ≠ "" ∧ status ≠ "Unknown" then description ++ " (" ++ status ++ ")"
  else description

/-! ## Confidence bucketing and score surfacing
(`app/main.py` lines 110-152 and 246-255, `mcp_server.py` lines 445-479 and
481-581) -/

/-- `_get_confidence_level` (`app/main.py` lines 110-119). -/
def get_confidence_level (score : ℚ) : String :=
  if score ≥ 7/10 then "high"
  else if score ≥ 5/10 then "medium"
  else if score ≥ 3/10 then "low"
  else "very_low"

/-- `round(x, 4)` modelled over `ℚ` (round to nearest, half up; Python floats
round half to even, but no claim exercises an exact tie). -/
def round4 (q : ℚ) : ℚ :=
  ((⌊q * 10000 + 1/2⌋ : ℤ) : ℚ) / 10000

/-- A retrieved context document as seen by the surfacing loops: page content
plus the metadata fields those loops read. -/
structure CtxNode where
  page_content : String
  relevance_score : Option ℚ
  file_name : Option String
  page_number : Option Nat
deriving DecidableEq

/-- `node.metadata.get("relevance_score", 1.0 - (idx * 0.1))`: the re-ranker
score if present, else the rank-based fallback. -/
def raw_score (idx : Nat) (node : CtxNode) : ℚ :=
  node.relevance_score.getD (1 - (idx : ℚ) * (1/10))

/-- `app.schemas.SourceNode` as constructed by the two FastAPI endpoints. -/
structure SourceNode where
  text_content : String
  score : ℚ
  confidence : Option String
  file_name : String
  page_number : Nat
deriving DecidableEq

/-- The source-node loop of `query_endpoint` (`app/main.py` lines 141-152):
score rounded to 4 decimal places, confidence computed from the raw score. -/
def query_endpoint_sources (ctx : List CtxNode) : List SourceNode :=
  ctx.enum.map (fun p =>
    { text_content := p.2.page_content
      score := round4 (raw_score p.1 p.2)
      confidence := some (get_confidence_level (raw_score p.1 p.2))
      file_name := p.2.file_name.getD "Unknown"
      page_number := p.2.page_number.getD 0 })

/-- The source-node loop of `chat_endpoint` (`app/main.py` lines 246-255):
the raw score is surfaced directly and no confidence label is attached. -/
def chat_endpoint_sources (ctx : List CtxNode) : List SourceNode :=
  ctx.enum.map (fun p =>
    { text_content := p.2.page_content
      score := raw_score p.1 p.2
      confidence := none
      file_name := p.2.file_name.getD "Unknown"
      page_number := p.2.page_number.getD 0 })

/-- A source entry built by the MCP tool handlers. -/
structure McpSource where
  text : String
  score : ℚ
  file_name : String
  page_number : Nat
deriving DecidableEq

/-- `node.page_content[:200] + "..." if len(...) > 200 else node.page_content`. -/
def truncate_preview (s : String) : String :=
  if s.length > 200 then (s.take 200).append "..." else s

/-- The source loop of `tool_query_documents` (`mcp_server.py` lines 465-473). -/
def tool_query_documents_sources (ctx : List CtxNode) : List McpSource :=
  ctx.enum.map (fun p =>
    { text := truncate_preview p.2.page_content
      score := round4 (raw_score p.1 p.2)
      file_name := p.2.file_name.getD "Unknown"
      page_number := p.2.page_number.getD 0 })

/-- The source loop of `tool_chat_with_documents` (`mcp_server.py`
lines 565-573); textually identical to the `tool_query_documents` loop. -/
def tool_chat_with_documents_sources (ctx : List CtxNode) : List McpSource :=
  ctx.enum.map (fun p =>
    { text := truncate_preview p.2.page_content
      score := round4 (raw_score p.1 p.2)
      file_name := p.2.file_name.getD "Unknown"
      page_number := p.2.page_number.getD 0 })

/-! ## System state and collection lifecycle (`multi_kb_rag.py`) -/

/-- Payload of the sentinel collection-metadata point written by
`create_collection` (`_type == "collection_metadata"`). -/
structure SentinelPayload where
  kb_name : PyStr
  description : String
  created_at : Nat
  document_count : Nat
deriving DecidableEq

/-- A chunk-ready document built by `upload_document`: page content plus the
three metadata layers of the merged `doc_metadata` dict (caller-supplied
fields override AI fields override system fields on lookup). -/
structure ChunkDoc where
  page_content : String
  kb_name : PyStr
  filename : String
  page_number : Nat
  uploaded_at : Nat
  ai_metadata : List (String × String)
  user_metadata : List (String × String)
deriving DecidableEq

/-- A point stored in a KB collection: the sentinel metadata point or a
document chunk. -/
inductive StoredPoint where
  | sentinel : SentinelPayload → StoredPoint
  | chunk : ChunkDoc → StoredPoint
deriving DecidableEq

/-- One turn of conversational memory (question, answer). -/
abbrev ChatTurn := String × String

/-- `self.chat_histories`: collection name → session id → memory turns. -/
abbrev ChatHistories := List (PyStr × List (String × List ChatTurn))

/-- The observable state of the Qdrant store plus the engine's in-process
session map. -/
structure RagSystemState where
  collections : List PyStr
  points : List (PyStr × List StoredPoint)
  router : RouterIndex
  chat_histories : ChatHistories
deriving DecidableEq

/-- Python dict result of the caller-facing operations, with absent keys
modelled as `none`. -/
structure ApiResult where
  success : Bool
  message : Option String := none
  suggestion : Option String := none
  kb_name : Option PyStr := none
  collection_name : Option PyStr := none
  description : Option String := none
  created_at : Option Nat := none
  ai_metadata : Option (List (String × String)) := none
  chunks : Option Nat := none
  pages : Option Nat := none
  filename : Option String := none
  collection_description : Option String := none
  available_kbs : Option (List PyStr) := none
  answer : Option String := none
  session_id : Option String := none
  sources : Option (List (String × List (String × String))) := none
deriving DecidableEq

/-- `collection_exists` (`multi_kb_rag.py` lines 149-155): membership of the
collection among the reachable collections. -/
def collection_exists (s : RagSystemState) (collection_name : PyStr) : Bool :=
  collection_name ∈ s.collections

/-- `create_collection` (`multi_kb_rag.py` lines 157-217): refuse when the
normalized target exists; otherwise create the vector collection, upsert the
sentinel metadata point, and register the router entry. -/
def create_collection (now : Nat) (s : RagSystemState) (kb_name : PyStr)
    (description : String) : RagSystemState × ApiResult :=
  let collection_name := get_collection_name kb_name
  if collection_exists s collection_name then
    (s, { success := false
          message := some ("Collection already exists")
          collection_name := some collection_name })
  else
    let s₁ : RagSystemState :=
      { s with
        collections := collection_name :: s.collections
        points := aset collection_name
          [StoredPoint.sentinel
            { kb_name := kb_name, description := description
              created_at := now, document_count := 0 }] s.points }
    let s₂ : RagSystemState :=
      { s₁ with router := update_router_index now kb_name description s₁.router }
    (s₂, { success := true
           kb_name := some kb_name
           collection_name := some collection_name
           description := some description
           created_at := some now })

/-- `list_collections` restricted to what the claims read: the KB names of
collections carrying the `kb_` prefix, with the prefix stripped. -/
def list_kb_names (s : RagSystemState) : List PyStr :=
  s.collections.filterMap (fun c =>
    match c with
    | 'k' :: 'b' :: '_' :: rest => some rest
    | _ => none)

/-- One extracted page (`{"page_number": ..., "text": ...}`). -/
structure PageData where
  page_number : Nat
  text : String
deriving DecidableEq

/-- `upload_document` (`multi_kb_rag.py` lines 453-603). External outcomes are
explicit inputs: `pages` is what `_extract_text_from_file` produced, `llm_json`
is the parse outcome of the metadata-extraction LLM call, and `storage_ok`
tells whether the Qdrant `add_documents` call succeeded. The text splitter is
an external collaborator and is modelled as the identity on the page-level
documents. -/
def upload_document (now : Nat) (s : RagSystemState) (kb_name : PyStr)
    (filename : String) (pages : List PageData) (llm_json : LlmJson)
    (auto_create : Bool) (user_metadata : Option (List (String × String)))
    (storage_ok : Bool) : RagSystemState × ApiResult :=
  let collection_name := get_collection_name kb_name
  if pages.isEmpty then
    (s, { success := false
          message := some ("Failed to extract text from file. Please check file format and content.") })
  else
    let first_text := ((pages.head?).map PageData.text).getD ""
    let ai_metadata :=
      if first_text = "" then [] else extract_metadata_multi_kb llm_json
    let smart_description :=
      if first_text = "" then ("Auto-created collection for ").append filename
      else generate_smart_description (extract_metadata_multi_kb llm_json) filename
    let store : RagSystemState → RagSystemState × ApiResult := fun sIn =>
      let documents := pages.map (fun p =>
        { page_content := p.text
          kb_name := kb_name
          filename := filename
          page_number := p.page_number
          uploaded_at := now
          ai_metadata := ai_metadata
          user_metadata := user_metadata.getD [] : ChunkDoc })
      let split_docs := documents
      if storage_ok then
        let sOut : RagSystemState :=
          { sIn with
            points := aset collection_name
              (((alookup collection_name sIn.points).getD []) ++
                split_docs.map StoredPoint.chunk) sIn.points
            router := update_router_index now kb_name smart_description sIn.router }
        (sOut, { success := true
                 kb_name := some kb_name
                 collection_name := some collection_name
                 filename := some filename
                 chunks := some split_docs.length
                 pages := some pages.length
                 ai_metadata := some ai_metadata
                 collection_description := some smart_description
                 message := some ("Document uploaded successfully with AI-generated metadata") })
      else
        (sIn, { success := false
                message := some ("Failed to store document in Qdrant")
                ai_metadata := some ai_metadata })
    if collection_exists s collection_name then store s
    else if auto_create then
      let created := create_collection now s kb_name smart_description
      if created.2.success then store created.1
      else created
    else
      (s, { success := false
            message := some ("Knowledge base does not exist.")
            suggestion := some ("Set auto_create=true to automatically create the KB, or call create_collection first.")
            ai_metadata := some ai_metadata })

/-- `_get_or_create_memory` (`multi_kb_rag.py` lines 605-617): lazily create
the per-(collection, session) memory. -/
def get_or_create_memory (hs : ChatHistories) (collection_name : PyStr)
    (session_id : String) : ChatHistories × List ChatTurn :=
  let inner := (alookup collection_name hs).getD []
  match alookup session_id inner with
  | some mem => (hs, mem)
  | none => (aset collection_name (aset session_id [] inner) hs, [])

/-- Store back a session's memory. -/
def set_memory (hs : ChatHistories) (collection_name : PyStr)
    (session_id : String) (mem : List ChatTurn) : ChatHistories :=
  aset collection_name (aset session_id mem ((alookup collection_name hs).getD [])) hs

/-- A source document returned by the conversational chain. -/
structure LcDocument where
  page_content : String
  metadata : List (String × String)
deriving DecidableEq

/-- `chat_with_collection` (`multi_kb_rag.py` lines 619-695). The
conversational chain is external: `chain_outcome` is `none` when it raised and
`some (answer, source_documents)` when it returned. The memory for the session
is resolved (and lazily created) before the chain runs; on success the
(question, answer) turn is appended to it. -/
def chat_with_collection (s : RagSystemState) (kb_name : PyStr) (query : String)
    (session_id : String) (chain_outcome : Option (String × List LcDocument)) :
    RagSystemState × ApiResult :=
  let collection_name := get_collection_name kb_name
  if collection_exists s collection_name then
    let resolved := get_or_create_memory s.chat_histories collection_name session_id
    match chain_outcome with
    | none =>
        ({ s with chat_histories := resolved.1 },
         { success := false, message := some ("Chat failed") })
    | some (answer, docs) =>
        let sources := docs.map (fun d =>
          ((d.page_content.take 200).append "...", d.metadata))
        let hs₂ := set_memory resolved.1 collection_name session_id
          (resolved.2 ++ [(query, answer)])
        ({ s with chat_histories := hs₂ },
         { success := true
           kb_name := some kb_name
           session_id := some session_id
           answer := some answer
           sources := some sources })
  else
    (s, { success := false
          message := some ("Knowledge base does not exist. Please upload documents first.")
          suggestion := some ("Try upload_document_to_kb to create the KB and add documents, then use chat_with_kb.")
          available_kbs := some (list_kb_names s) })

/-- `clear_chat_history` (`multi_kb_rag.py` lines 814-829). -/
def clear_chat_history (s : RagSystemState) (kb_name : PyStr)
    (session_id : String) : RagSystemState × ApiResult :=
  let collection_name := get_collection_name kb_name
  match alookup collection_name s.chat_histories with
  | some inner =>
      match alookup session_id inner with
      | some _ =>
          let hs' := aset collection_name (aerase session_id inner) s.chat_histories
          ({ s with chat_histories := hs' },
           { success := true
             message := some ("Chat history cleared for session") })
      | none => (s, { success := false, message := some ("Session not found") })
  | none => (s, { success := false, message := some ("Session not found") })

/-! ## Claim theorems -/

theorem alookup_aset_self {α β : Type} [DecidableEq α] (k : α) (v : β) (l : List (α × β)) :
    alookup k (aset k v l) = some v := by
  simp [aset, alookup]

theorem alookup_aerase_self {α β : Type} [DecidableEq α] (k : α) (l : List (α × β)) :
    alookup k (aerase k l) = none := by
  induction l with
  | nil => rfl
  | cons p t ih =>
    by_cases h : p.1 = k
    · simpa [aerase, h] using ih
    · simpa [aerase, alookup, h] using ih

theorem alookup_aerase_ne {α β : Type} [DecidableEq α] {k k' : α} (l : List (α × β))
    (h : k' ≠ k) : alookup k' (aerase k l) = alookup k' l := by
  induction l with
  | nil => rfl
  | cons p t ih =>
    by_cases hp : p.1 = k
    · have hpk : ¬ p.1 = k' := by rw [hp]; exact fun hh => h hh.symm
      have hstep : aerase k (p :: t) = aerase k t := by simp [aerase, hp]
      rw [hstep, ih]
      simp [alookup, hpk]
    · have hstep : aerase k (p :: t) = p :: aerase k t := by simp [aerase, hp]
      rw [hstep]
      by_cases hpk : p.1 = k'
      · simp [alookup, hpk]
      · simp [alookup, hpk, ih]

theorem alookup_aset_ne {α β : Type} [DecidableEq α] {k k' : α} (v : β) (l : List (α × β))
    (h : k' ≠ k) : alookup k' (aset k v l) = alookup k' l := by
  have h2 : ¬ (k = k') := fun hh => h hh.symm
  simp only [aset, alookup, if_neg h2]
  exact alookup_aerase_ne l h

theorem alookup_append {α β : Type} [DecidableEq α] (k : α) (l₁ l₂ : List (α × β)) :
    alookup k (l₁ ++ l₂) =
      match alookup k l₁ with
      | some v => some v
      | none => alookup k l₂ := by
  induction l₁ with
  | nil => simp [alookup]
  | cons p t ih =>
    by_cases h : p.1 = k
    · simp [alookup, h]
    · simpa [alookup, h] using ih

theorem aerase_sublist {α β : Type} [DecidableEq α] (k : α) (l : List (α × β)) :
    List.Sublist (aerase k l) l := by
  induction l with
  | nil => exact List.Sublist.refl _
  | cons p t ih =>
    by_cases hp : p.1 = k
    · have hstep : aerase k (p :: t) = aerase k t := by simp [aerase, hp]
      rw [hstep]
      exact ih.cons p
    · have hstep : aerase k (p :: t) = p :: aerase k t := by simp [aerase, hp]
      rw [hstep]
      exact ih.cons₂ p

theorem not_mem_keys_aerase {α β : Type} [DecidableEq α] (k : α) (l : List (α × β)) :
    k ∉ (aerase k l).map Prod.fst := by
  induction l with
  | nil => simp [aerase]
  | cons p t ih =>
    by_cases hp : p.1 = k
    · have hstep : aerase k (p :: t) = aerase k t := by simp [aerase, hp]
      rw [hstep]
      exact ih
    · have hstep : aerase k (p :: t) = p :: aerase k t := by simp [aerase, hp]
      rw [hstep]
      simp only [List.map_cons, List.mem_cons, not_or]
      exact ⟨fun hh => hp hh.symm, ih⟩

/-- Keys of `aset` stay duplicate-free: upsert never introduces a second
binding for the same key. -/
theorem nodup_keys_aset {α β : Type} [DecidableEq α] (k : α) (v : β) (l : List (α × β))
    (h : (l.map Prod.fst).Nodup) : ((aset k v l).map Prod.fst).Nodup := by
  refine List.nodup_cons.2 ⟨not_mem_keys_aerase k l, ?_⟩
  exact h.sublist ((aerase_sublist k l).map Prod.fst)

theorem normalize_eq_map (name : PyStr) :
    normalize_collection_name name =
      name.map (fun c =>
        (fun x => if x = '-' then '_' else x)
          ((fun x => if x = ' ' then '_' else x) (Char.toLower c))) := by
  simp [normalize_collection_name, replace_char, List.map_map]

theorem sep_like_norm {c : Char} (h : sep_like c = true) :
    (if (if Char.toLower c = ' ' then '_' else Char.toLower c) = '-' then '_'
     else if Char.toLower c = ' ' then '_' else Char.toLower c) = '_' := by
  have h' : c = ' ' ∨ c = '-' ∨ c = '_' := by
    simpa [sep_like, or_assoc] using h
  rcases h' with h' | h' | h' <;> subst h' <;> decide

theorem normalize_eq_of_case_sep_equiv :
    ∀ n₁ n₂ : PyStr, case_sep_equiv n₁ n₂ = true →
      normalize_collection_name n₁ = normalize_collection_name n₂ := by
  intro n₁
  induction n₁ with
  | nil =>
    intro n₂ h
    cases n₂ with
    | nil => rfl
    | cons c t => simp [case_sep_equiv] at h
  | cons c₁ t₁ ih =>
    intro n₂ h
    cases n₂ with
    | nil => simp [case_sep_equiv] at h
    | cons c₂ t₂ =>
      simp only [case_sep_equiv, Bool.and_eq_true, Bool.or_eq_true, decide_eq_true_eq] at h
      obtain ⟨hc, ht⟩ := h
      have htail := ih t₂ ht
      rw [normalize_eq_map] at htail ⊢
      rw [normalize_eq_map (c₂ :: t₂)]
      simp only [List.map_cons, List.cons.injEq]
      refine ⟨?_, by simpa [normalize_eq_map] using htail⟩
      rcases hc with hc | ⟨h₁, h₂⟩
      · simp [hc]
      · rw [sep_like_norm h₁, sep_like_norm h₂]

theorem get_collection_name_eq_of_case_sep_equiv (n₁ n₂ : PyStr)
    (h : case_sep_equiv n₁ n₂ = true) :
    get_collection_name n₁ = get_collection_name n₂ := by
  simp [get_collection_name, normalize_eq_of_case_sep_equiv n₁ n₂ h]


/-- C1: for every query, `route_to_kb` returns none when the Router Index
collection does not exist, when it exists but holds zero points, or when the
nearest-neighbor search returns no result; otherwise it compares the single
best match's similarity score against the fixed threshold 0.4, returning none
below the threshold and the matched KB's human name with the raw similarity
score at or above it. -/
theorem route_to_kb_spec (router_exists : Bool) (points_count : Nat)
    (search_result : List RouterHit) :
    (router_exists = false →
      route_to_kb router_exists points_count search_result = none) ∧
    (points_count = 0 →
      route_to_kb router_exists points_count search_result = none) ∧
    (search_result = [] →
      route_to_kb router_exists points_count search_result = none) ∧
    (∀ best rest, search_result = best :: rest → router_exists = true →
      points_count ≠ 0 →
      (best.score < ROUTER_SIMILARITY_THRESHOLD →
        route_to_kb router_exists points_count search_result = none) ∧
      (ROUTER_SIMILARITY_THRESHOLD ≤ best.score →
        route_to_kb router_exists points_count search_result =
          some (best.payload.kb_name, best.score))) := by
  refine ⟨?_, ?_, ?_, ?_⟩
  · rintro rfl; rfl
  · rintro rfl; cases router_exists <;> rfl
  · rintro rfl; cases router_exists <;> cases points_count <;> rfl
  · rintro best rest rfl rfl hc
    rcases Nat.exists_eq_succ_of_ne_zero hc with ⟨m, rfl⟩
    constructor
    · intro hlt
      simp [route_to_kb, hlt]
    · intro hge
      simp [route_to_kb, not_lt.2 hge]

/-- Witness for C1 at a concrete existing, non-empty router index whose best
hit scores 0.5 ≥ 0.4. -/
theorem route_to_kb_spec_witness :
    route_to_kb true 1
      [{ payload := { kb_name := ['d','o','c','s'],
                      collection_name := ['k','b','_','d','o','c','s'],
                      description := "docs", updated_at := 0 },
         score := 1/2 }] = some (['d','o','c','s'], 1/2) := by
  have h := (route_to_kb_spec true 1
      [{ payload := { kb_name := ['d','o','c','s'],
                      collection_name := ['k','b','_','d','o','c','s'],
                      description := "docs", updated_at := 0 },
         score := 1/2 }]).2.2.2
      { payload := { kb_name := ['d','o','c','s'],
                     collection_name := ['k','b','_','d','o','c','s'],
                     description := "docs", updated_at := 0 },
        score := 1/2 } [] rfl rfl (by decide)
  exact h.2 (by norm_num [ROUTER_SIMILARITY_THRESHOLD])

/-- C2 counterexample: the stateful chat endpoint of `app/main.py` surfaces
the re-ranker score without rounding, so a score with more than 4 decimal
places reaches the caller unrounded. -/
theorem chat_endpoint_raw_score_counterexample :
    (chat_endpoint_sources
        [{ page_content := "x", relevance_score := some (123456/1000000),
           file_name := none, page_number := none }]).map SourceNode.score =
      [123456/1000000] ∧
    round4 (123456/1000000) ≠ (123456/1000000 : ℚ) := by
  constructor
  · rfl
  · norm_num [round4, Int.floor_eq_iff]

/-- C2 amended: the stateless query endpoint and both MCP tool handlers
surface every relevance score rounded to 4 decimal places, but the stateful
HTTP chat endpoint surfaces the raw score unrounded. -/
theorem surfaced_scores_rounded_amended (ctx : List CtxNode) :
    (query_endpoint_sources ctx).map SourceNode.score =
      ctx.enum.map (fun p => round4 (raw_score p.1 p.2)) ∧
    (tool_query_documents_sources ctx).map McpSource.score =
      ctx.enum.map (fun p => round4 (raw_score p.1 p.2)) ∧
    (tool_chat_with_documents_sources ctx).map McpSource.score =
      ctx.enum.map (fun p => round4 (raw_score p.1 p.2)) ∧
    (chat_endpoint_sources ctx).map SourceNode.score =
      ctx.enum.map (fun p => raw_score p.1 p.2) := by
  refine ⟨?_, ?_, ?_, ?_⟩ <;>
    simp [query_endpoint_sources, tool_query_documents_sources,
      tool_chat_with_documents_sources, chat_endpoint_sources, List.map_map]

/-- C3: KB names that differ only in letter case or in the separators
space/hyphen/underscore resolve to the same storage collection name, and that
collection name is the normalized name carrying the `kb_` prefix — a pure
function of the human name. -/
theorem kb_collection_name_invariant (n₁ n₂ : PyStr)
    (h : case_sep_equiv n₁ n₂ = true) :
    get_collection_name n₁ = get_collection_name n₂ ∧
    get_collection_name n₁ = 'k' :: 'b' :: '_' :: normalize_collection_name n₁ :=
  ⟨get_collection_name_eq_of_case_sep_equiv n₁ n₂ h, rfl⟩

/-- Witness for C3 at the spec's example pair "My KB" / "my-kb". -/
theorem kb_collection_name_invariant_witness :
    get_collection_name ['M','y',' ','K','B'] =
      get_collection_name ['m','y','-','k','b'] ∧
    get_collection_name ['M','y',' ','K','B'] =
      'k' :: 'b' :: '_' :: normalize_collection_name ['M','y',' ','K','B'] :=
  kb_collection_name_invariant ['M','y',' ','K','B'] ['m','y','-','k','b'] (by decide)

/-- C4: creating a KB whose normalized target collection already exists
performs no mutation at all (no vector-store write, no sentinel point, no
RouterEntry) and returns a not-success result carrying the existing resolved
collection name. -/
theorem create_collection_existing_no_mutation (now : Nat) (s : RagSystemState)
    (kb_name : PyStr) (description : String)
    (h : collection_exists s (get_collection_name kb_name) = true) :
    (create_collection now s kb_name description).1 = s ∧
    (create_collection now s kb_name description).2.success = false ∧
    (create_collection now s kb_name description).2.collection_name =
      some (get_collection_name kb_name) := by
  refine ⟨?_, ?_, ?_⟩ <;> simp [create_collection, h]

/-- Witness for C4 at a concrete state already holding `kb_docs`. -/
theorem create_collection_existing_no_mutation_witness :
    collection_exists
        { collections := [['k','b','_','d','o','c','s']], points := [],
          router := [], chat_histories := [] }
        (get_collection_name ['D','o','c','s']) = true ∧
    (create_collection 0
        { collections := [['k','b','_','d','o','c','s']], points := [],
          router := [], chat_histories := [] }
        ['D','o','c','s'] "d").1 =
      { collections := [['k','b','_','d','o','c','s']], points := [],
        router := [], chat_histories := [] } ∧
    (create_collection 0
        { collections := [['k','b','_','d','o','c','s']], points := [],
          router := [], chat_histories := [] }
        ['D','o','c','s'] "d").2.success = false := by
  refine ⟨by decide, ?_, ?_⟩
  · exact (create_collection_existing_no_mutation 0
      { collections := [['k','b','_','d','o','c','s']], points := [],
        router := [], chat_histories := [] }
      ['D','o','c','s'] "d" (by decide)).1
  · exact (create_collection_existing_no_mutation 0
      { collections := [['k','b','_','d','o','c','s']], points := [],
        router := [], chat_histories := [] }
      ['D','o','c','s'] "d" (by decide)).2.1

/-- C5 counterexample: an `upload_document` call that targets a nonexistent KB
with auto_create disabled but whose text extraction yields zero pages returns
the extraction failure — a result with no auto-create suggestion and no
`ai_metadata` key — refuting the claim as universally stated. -/
theorem upload_no_autocreate_extraction_counterexample :
    collection_exists
        { collections := [], points := [], router := [], chat_histories := [] }
        (get_collection_name ['d','o','c','s']) = false ∧
    (upload_document 0
        { collections := [], points := [], router := [], chat_histories := [] }
        ['d','o','c','s'] "f.bin" [] .parseError false none true).2.success = false ∧
    (upload_document 0
        { collections := [], points := [], router := [], chat_histories := [] }
        ['d','o','c','s'] "f.bin" [] .parseError false none true).2.suggestion = none ∧
    (upload_document 0
        { collections := [], points := [], router := [], chat_histories := [] }
        ['d','o','c','s'] "f.bin" [] .parseError false none true).2.ai_metadata = none := by
  refine ⟨by decide, by decide, by decide, by decide⟩

/-- C5 amended: whenever text extraction yields at least one page, an
`upload_document` call targeting a nonexistent KB with auto_create disabled
creates no storage (state unchanged: no collection, no points, no RouterEntry)
and returns a not-success result whose payload includes the suggestion to
enable auto-create and the AI metadata gathered before the failure (the empty
record when the first page had no text). When extraction yields zero pages the
call still creates no storage but returns only an extraction failure. -/
theorem upload_no_autocreate_fails_with_suggestion (now : Nat)
    (s : RagSystemState) (kb_name : PyStr) (filename : String)
    (pages : List PageData) (llm_json : LlmJson)
    (user_metadata : Option (List (String × String))) (storage_ok : Bool)
    (hpages : pages ≠ [])
    (hex : collection_exists s (get_collection_name kb_name) = false) :
    (upload_document now s kb_name filename pages llm_json false user_metadata
        storage_ok).1 = s ∧
    (upload_document now s kb_name filename pages llm_json false user_metadata
        storage_ok).2.success = false ∧
    (upload_document now s kb_name filename pages llm_json false user_metadata
        storage_ok).2.suggestion =
      some ("Set auto_create=true to automatically create the KB, or call create_collection first.") ∧
    (upload_document now s kb_name filename pages llm_json false user_metadata
        storage_ok).2.ai_metadata =
      some (if ((pages.head?).map PageData.text).getD "" = "" then []
            else extract_metadata_multi_kb llm_json) := by
  have hne : pages.isEmpty = false := by
    cases pages with
    | nil => exact absurd rfl hpages
    | cons a t => rfl
  refine ⟨?_, ?_, ?_, ?_⟩ <;> simp [upload_document, hne, hex]

/-- Witness for C5 (amended) at a one-page upload into an empty store. -/
theorem upload_no_autocreate_fails_with_suggestion_witness :
    (⟨1, "hello"⟩ :: ([] : List PageData)) ≠ [] ∧
    collection_exists
        { collections := [], points := [], router := [], chat_histories := [] }
        (get_collection_name ['d','o','c','s']) = false ∧
    (upload_document 0
        { collections := [], points := [], router := [], chat_histories := [] }
        ['d','o','c','s'] "f.txt" [⟨1, "hello"⟩] .parseError false none true).1 =
      { collections := [], points := [], router := [], chat_histories := [] } ∧
    (upload_document 0
        { collections := [], points := [], router := [], chat_histories := [] }
        ['d','o','c','s'] "f.txt" [⟨1, "hello"⟩] .parseError false none true).2.suggestion =
      some ("Set auto_create=true to automatically create the KB, or call create_collection first.") := by
  refine ⟨by decide, by decide, ?_, ?_⟩
  · exact (upload_no_autocreate_fails_with_suggestion 0
      { collections := [], points := [], router := [], chat_histories := [] }
      ['d','o','c','s'] "f.txt" [⟨1, "hello"⟩] .parseError none true
      (by decide) (by decide)).1
  · exact (upload_no_autocreate_fails_with_suggestion 0
      { collections := [], points := [], router := [], chat_histories := [] }
      ['d','o','c','s'] "f.txt" [⟨1, "hello"⟩] .parseError none true
      (by decide) (by decide)).2.2.1

/-- C6: the router index holds at most one entry per KB — registration writes
a point keyed by the KB's prefixed collection name with upsert semantics, so
re-registering overwrites the previous entry — and nothing is written when the
description is empty or is the placeholder value. -/
theorem router_index_upsert_unique (now : Nat) (kb_name : PyStr) (d : String)
    (router : RouterIndex)
    (hnodup : (router.map Prod.fst).Nodup) :
    ((update_router_index now kb_name d router).map Prod.fst).Nodup ∧
    update_router_index now kb_name "" router = router ∧
    update_router_index now kb_name ("Auto-created collection") router = router ∧
    (d ≠ "" → d ≠ "Auto-created collection" →
      alookup (get_collection_name kb_name)
          (update_router_index now kb_name d router) =
        some { kb_name := kb_name,
               collection_name := get_collection_name kb_name,
               description := d, updated_at := now }) ∧
    (∀ now' d', d' ≠ "" → d' ≠ "Auto-created collection" →
      alookup (get_collection_name kb_name)
          (update_router_index now' kb_name d'
            (update_router_index now kb_name d router)) =
        some { kb_name := kb_name,
               collection_name := get_collection_name kb_name,
               description := d', updated_at := now' }) := by
  refine ⟨?_, ?_, ?_, ?_, ?_⟩
  · unfold update_router_index
    split_ifs with h
    · exact hnodup
    · exact nodup_keys_aset _ _ _ hnodup
  · simp [update_router_index]
  · simp [update_router_index]
  · intro h1 h2
    unfold update_router_index
    rw [if_neg (by tauto)]
    exact alookup_aset_self _ _ _
  · intro now' d' h1 h2
    conv_lhs => rw [update_router_index]
    rw [if_neg (by tauto)]
    exact alookup_aset_self _ _ _

/-- Witness for C6: re-registering a KB over a one-entry index keeps a single
entry and the newest description wins. -/
theorem router_index_upsert_unique_witness :
    alookup (get_collection_name ['k','b','1'])
        (update_router_index 1 ['k','b','1'] "second"
          (update_router_index 0 ['k','b','1'] "first" [])) =
      some { kb_name := ['k','b','1'],
             collection_name := get_collection_name ['k','b','1'],
             description := "second", updated_at := 1 } :=
  (router_index_upsert_unique 0 ['k','b','1'] "first" [] (by decide)).2.2.2.2
    1 "second" (by decide) (by decide)

/-- C7 counterexample: `rag_pipeline._extract_metadata_from_text` returns a
structurally valid parsed object as-is, so an object lacking `doc_type` yields
a record that does not contain all four required fields. -/
theorem rag_pipeline_metadata_missing_field_counterexample :
    extract_metadata_rag_pipeline (.obj [("title", "X")]) = [("title", "X")] ∧
    alookup ("doc_type")
      (extract_metadata_rag_pipeline (.obj [("title", "X")])) = none := by
  exact ⟨rfl, by decide⟩

theorem add_if_missing_lookup_self (f : String) (acc : List (String × String)) :
    (alookup f (add_if_missing f acc)).isSome = true := by
  unfold add_if_missing
  split_ifs with h
  · exact h
  · have hnone : alookup f acc = none := by
      cases hv : alookup f acc with
      | none => rfl
      | some v => rw [hv] at h; exact absurd rfl h
    rw [alookup_append]
    simp [hnone, alookup]

theorem add_if_missing_preserve (f f' : String) (acc : List (String × String))
    (v : String) (h : alookup f acc = some v) :
    alookup f (add_if_missing f' acc) = some v := by
  unfold add_if_missing
  split_ifs with h'
  · exact h
  · rw [alookup_append]
    simp [h]

theorem add_if_missing_self_of_none (f : String) (acc : List (String × String))
    (h : alookup f acc = none) :
    alookup f (add_if_missing f acc) = some ("Unknown") := by
  unfold add_if_missing
  rw [if_neg (by simp [h]), alookup_append]
  simp [h, alookup]

theorem add_if_missing_none_ne (f f' : String) (acc : List (String × String))
    (hne : f' ≠ f) (h : alookup f acc = none) :
    alookup f (add_if_missing f' acc) = none := by
  unfold add_if_missing
  split_ifs with h'
  · exact h
  · rw [alookup_append]
    simp [h, alookup, hne]

theorem add_if_missing_isSome (f f' : String) (acc : List (String × String))
    (h : (alookup f acc).isSome = true) :
    (alookup f (add_if_missing f' acc)).isSome = true := by
  obtain ⟨v, hv⟩ := Option.isSome_iff_exists.1 h
  rw [add_if_missing_preserve f f' acc v hv]
  rfl

/-- C7 amended: the multi-KB extractor always returns a record containing all
four required fields — the complete default record when parsing throws or the
parsed result is not an object, and otherwise the parsed object with each
missing required field filled with "Unknown" — and never raises past the
extractor boundary (both extractors are total); the rag_pipeline extractor
falls back to its complete default record on parse failure or a non-object
result, but returns a structurally valid parsed object verbatim, without
filling missing fields. -/
theorem metadata_extractor_fallbacks (parsed : LlmJson) :
    (∀ f ∈ required_fields,
      (alookup f (extract_metadata_multi_kb parsed)).isSome = true) ∧
    extract_metadata_multi_kb .parseError = default_metadata_multi_kb ∧
    extract_metadata_multi_kb .nonObject = default_metadata_multi_kb ∧
    (∀ fields f, f ∈ required_fields → alookup f fields = none →
      alookup f (extract_metadata_multi_kb (.obj fields)) = some ("Unknown")) ∧
    extract_metadata_rag_pipeline .parseError = default_metadata_rag_pipeline ∧
    extract_metadata_rag_pipeline .nonObject = default_metadata_rag_pipeline ∧
    (∀ fields, extract_metadata_rag_pipeline (.obj fields) = fields) := by
  refine ⟨?_, rfl, rfl, ?_, rfl, rfl, fun _ => rfl⟩
  · intro f hf
    cases parsed with
    | parseError => fin_cases hf <;> decide
    | nonObject => fin_cases hf <;> decide
    | obj fields =>
      have e : extract_metadata_multi_kb (.obj fields) =
          add_if_missing "title" (add_if_missing "status"
            (add_if_missing "category" (add_if_missing "doc_type" fields))) := rfl
      rw [e]
      fin_cases hf
      · exact add_if_missing_isSome _ _ _ (add_if_missing_isSome _ _ _
          (add_if_missing_isSome _ _ _ (add_if_missing_lookup_self _ _)))
      · exact add_if_missing_isSome _ _ _ (add_if_missing_isSome _ _ _
          (add_if_missing_lookup_self _ _))
      · exact add_if_missing_isSome _ _ _ (add_if_missing_lookup_self _ _)
      · exact add_if_missing_lookup_self _ _
  · intro fields f hf hnone
    have e : extract_metadata_multi_kb (.obj fields) =
        add_if_missing "title" (add_if_missing "status"
          (add_if_missing "category" (add_if_missing "doc_type" fields))) := rfl
    rw [e]
    fin_cases hf
    · exact add_if_missing_preserve _ _ _ _ (add_if_missing_preserve _ _ _ _
        (add_if_missing_preserve _ _ _ _ (add_if_missing_self_of_none _ _ hnone)))
    · have h1 : alookup "category" (add_if_missing "doc_type" fields) = none :=
        add_if_missing_none_ne _ _ _ (by decide) hnone
      exact add_if_missing_preserve _ _ _ _ (add_if_missing_preserve _ _ _ _
        (add_if_missing_self_of_none _ _ h1))
    · have h1 : alookup "status" (add_if_missing "doc_type" fields) = none :=
        add_if_missing_none_ne _ _ _ (by decide) hnone
      have h2 : alookup "status"
          (add_if_missing "category" (add_if_missing "doc_type" fields)) = none :=
        add_if_missing_none_ne _ _ _ (by decide) h1
      exact add_if_missing_preserve _ _ _ _ (add_if_missing_self_of_none _ _ h2)
    · have h1 : alookup "title" (add_if_missing "doc_type" fields) = none :=
        add_if_missing_none_ne _ _ _ (by decide) hnone
      have h2 : alookup "title"
          (add_if_missing "category" (add_if_missing "doc_type" fields)) = none :=
        add_if_missing_none_ne _ _ _ (by decide) h1
      have h3 : alookup "title" (add_if_missing "status"
          (add_if_missing "category" (add_if_missing "doc_type" fields))) = none :=
        add_if_missing_none_ne _ _ _ (by decide) h2
      exact add_if_missing_self_of_none _ _ h3

/-- Witness for C7 (amended): an object holding only `title` has its missing
`doc_type` filled with "Unknown" by the multi-KB extractor. -/
theorem metadata_extractor_fallbacks_witness :
    alookup ("doc_type")
      (extract_metadata_multi_kb (.obj [("title", "T")])) = some ("Unknown") :=
  (metadata_extractor_fallbacks (.obj [("title", "T")])).2.2.2.1
    [("title", "T")] "doc_type" (by decide) (by decide)

theorem get_confidence_level_cases (s : ℚ) :
    (7/10 ≤ s ∧ get_confidence_level s = "high") ∨
    (5/10 ≤ s ∧ s < 7/10 ∧ get_confidence_level s = "medium") ∨
    (3/10 ≤ s ∧ s < 5/10 ∧ get_confidence_level s = "low") ∨
    (s < 3/10 ∧ get_confidence_level s = "very_low") := by
  unfold get_confidence_level
  split_ifs with h1 h2 h3
  · exact Or.inl ⟨h1, rfl⟩
  · exact Or.inr (Or.inl ⟨h2, not_le.mp h1, rfl⟩)
  · exact Or.inr (Or.inr (Or.inl ⟨h3, not_le.mp h2, rfl⟩))
  · exact Or.inr (Or.inr (Or.inr ⟨not_le.mp h3, rfl⟩))

/-- C8: confidence bucketing yields "high" iff score ≥ 0.7, "medium" iff
0.5 ≤ score < 0.7, "low" iff 0.3 ≤ score < 0.5, and "very_low" otherwise;
0.85, 0.55, 0.35 and 0.1 land in the expected buckets and the boundary values
0.7, 0.5, 0.3 each bucket into the higher tier. -/
theorem confidence_bucketing (s : ℚ) :
    (get_confidence_level s = "high" ↔ 7/10 ≤ s) ∧
    (get_confidence_level s = "medium" ↔ 5/10 ≤ s ∧ s < 7/10) ∧
    (get_confidence_level s = "low" ↔ 3/10 ≤ s ∧ s < 5/10) ∧
    (get_confidence_level s = "very_low" ↔ s < 3/10) ∧
    get_confidence_level (85/100) = "high" ∧
    get_confidence_level (55/100) = "medium" ∧
    get_confidence_level (35/100) = "low" ∧
    get_confidence_level (1/10) = "very_low" ∧
    get_confidence_level (7/10) = "high" ∧
    get_confidence_level (5/10) = "medium" ∧
    get_confidence_level (3/10) = "low" := by
  have hne1 : ("medium" : String) ≠ "high" := by decide
  have hne2 : ("low" : String) ≠ "high" := by decide
  have hne3 : ("very_low" : String) ≠ "high" := by decide
  have hne4 : ("high" : String) ≠ "medium" := by decide
  have hne5 : ("low" : String) ≠ "medium" := by decide
  have hne6 : ("very_low" : String) ≠ "medium" := by decide
  have hne7 : ("high" : String) ≠ "low" := by decide
  have hne8 : ("medium" : String) ≠ "low" := by decide
  have hne9 : ("very_low" : String) ≠ "low" := by decide
  have hne10 : ("high" : String) ≠ "very_low" := by decide
  have hne11 : ("medium" : String) ≠ "very_low" := by decide
  have hne12 : ("low" : String) ≠ "very_low" := by decide
  refine ⟨?_, ?_, ?_, ?_, by norm_num [get_confidence_level],
    by norm_num [get_confidence_level], by norm_num [get_confidence_level],
    by norm_num [get_confidence_level], by norm_num [get_confidence_level],
    by norm_num [get_confidence_level], by norm_num [get_confidence_level]⟩
  · constructor
    · intro h
      rcases get_confidence_level_cases s with ⟨h7, _⟩ | ⟨_, _, he⟩ | ⟨_, _, he⟩ | ⟨_, he⟩
      · exact h7
      · rw [he] at h; exact absurd h hne1
      · rw [he] at h; exact absurd h hne2
      · rw [he] at h; exact absurd h hne3
    · intro h
      unfold get_confidence_level
      rw [if_pos h]
  · constructor
    · intro h
      rcases get_confidence_level_cases s with ⟨_, he⟩ | ⟨h5, h7, _⟩ | ⟨_, _, he⟩ | ⟨_, he⟩
      · rw [he] at h; exact absurd h hne4
      · exact ⟨h5, h7⟩
      · rw [he] at h; exact absurd h hne5
      · rw [he] at h; exact absurd h hne6
    · rintro ⟨h5, h7⟩
      unfold get_confidence_level
      rw [if_neg (not_le.2 h7), if_pos h5]
  · constructor
    · intro h
      rcases get_confidence_level_cases s with ⟨_, he⟩ | ⟨_, _, he⟩ | ⟨h3, h5, _⟩ | ⟨_, he⟩
      · rw [he] at h; exact absurd h hne7
      · rw [he] at h; exact absurd h hne8
      · exact ⟨h3, h5⟩
      · rw [he] at h; exact absurd h hne9
    · rintro ⟨h3, h5⟩
      unfold get_confidence_level
      rw [if_neg (not_le.2 (lt_of_lt_of_le h5 (by norm_num))),
        if_neg (not_le.2 h5), if_pos h3]
  · constructor
    · intro h
      rcases get_confidence_level_cases s with ⟨_, he⟩ | ⟨_, _, he⟩ | ⟨_, _, he⟩ | ⟨h3, _⟩
      · rw [he] at h; exact absurd h hne10
      · rw [he] at h; exact absurd h hne11
      · rw [he] at h; exact absurd h hne12
      · exact h3
    · intro h3
      unfold get_confidence_level
      rw [if_neg (not_le.2 (lt_of_lt_of_le h3 (by norm_num))),
        if_neg (not_le.2 (lt_of_lt_of_le h3 (by norm_num))),
        if_neg (not_le.2 h3)]

/-- Witness for C8 exercising the iff at a concrete boundary score. -/
theorem confidence_bucketing_witness :
    get_confidence_level (7/10) = "high" :=
  (confidence_bucketing (7/10)).1.mpr (by norm_num)

/-- C9: a retrieved result lacking an explicit re-ranker score receives the
rank-based fallback score 1 - 0.1·i at 0-based rank i, and three unscored
results surface exactly the scores [1.0, 0.9, 0.8] in both the stateless
query endpoint and the MCP query tool. -/
theorem fallback_rank_scores (i : Nat) (node : CtxNode)
    (h : node.relevance_score = none) :
    raw_score i node = 1 - (i : ℚ) * (1/10) ∧
    (query_endpoint_sources
        [⟨"a", none, none, none⟩, ⟨"b", none, none, none⟩,
         ⟨"c", none, none, none⟩]).map SourceNode.score = [1, 9/10, 8/10] ∧
    (tool_query_documents_sources
        [⟨"a", none, none, none⟩, ⟨"b", none, none, none⟩,
         ⟨"c", none, none, none⟩]).map McpSource.score = [1, 9/10, 8/10] := by
  refine ⟨by simp [raw_score, h], ?_, ?_⟩
  · simp [query_endpoint_sources, raw_score, List.enum, round4]
    norm_num [Int.floor_eq_iff]
  · simp [tool_query_documents_sources, raw_score, List.enum, round4]
    norm_num [Int.floor_eq_iff]

/-- Witness for C9 at rank 2 of an unscored node. -/
theorem fallback_rank_scores_witness :
    raw_score 2 ⟨"x", none, none, none⟩ = 1 - (2 : ℚ) * (1/10) :=
  (fallback_rank_scores 2 ⟨"x", none, none, none⟩ rfl).1

theorem get_or_create_memory_lookup (hs : ChatHistories) (coll : PyStr)
    (sid : String) :
    ∃ mem, alookup sid
      ((alookup coll (get_or_create_memory hs coll sid).1).getD []) = some mem := by
  simp only [get_or_create_memory]
  cases hmatch : alookup sid ((alookup coll hs).getD []) with
  | some m => exact ⟨m, by simpa using hmatch⟩
  | none =>
    refine ⟨[], ?_⟩
    simp only [alookup_aset_self, Option.getD_some]

theorem chat_creates_session (s : RagSystemState) (kb : PyStr) (q sid : String)
    (outcome : Option (String × List LcDocument))
    (hex : collection_exists s (get_collection_name kb) = true) :
    ∃ mem, alookup sid
      ((alookup (get_collection_name kb)
        (chat_with_collection s kb q sid outcome).1.chat_histories).getD []) =
      some mem := by
  cases outcome with
  | none =>
    simp only [chat_with_collection, hex, if_true]
    exact get_or_create_memory_lookup s.chat_histories (get_collection_name kb) sid
  | some pr =>
    obtain ⟨ans, docs⟩ := pr
    simp only [chat_with_collection, hex, if_true, set_memory]
    refine ⟨(get_or_create_memory s.chat_histories (get_collection_name kb) sid).2
      ++ [(q, ans)], ?_⟩
    simp only [alookup_aset_self, Option.getD_some]

/-- C10: conversation memory is keyed by the prefixed normalized collection
name, not the raw KB name — for any two KB names that normalize identically, a
session created by chatting under one spelling is found and cleared (with a
success result) under the other spelling. -/
theorem chat_memory_keyed_by_collection (n₁ n₂ : PyStr) (s : RagSystemState)
    (query session_id : String)
    (chain_outcome : Option (String × List LcDocument))
    (heq : case_sep_equiv n₁ n₂ = true)
    (hex : collection_exists s (get_collection_name n₁) = true) :
    (clear_chat_history
        (chat_with_collection s n₁ query session_id chain_outcome).1
        n₂ session_id).2.success = true ∧
    alookup session_id
      ((alookup (get_collection_name n₂)
        (clear_chat_history
          (chat_with_collection s n₁ query session_id chain_outcome).1
          n₂ session_id).1.chat_histories).getD []) = none := by
  have hco : get_collection_name n₂ = get_collection_name n₁ :=
    (get_collection_name_eq_of_case_sep_equiv n₁ n₂ heq).symm
  obtain ⟨mem, hmem⟩ :=
    chat_creates_session s n₁ query session_id chain_outcome hex
  cases hcoll : alookup (get_collection_name n₁)
      (chat_with_collection s n₁ query session_id chain_outcome).1.chat_histories with
  | none => rw [hcoll] at hmem; simp [alookup] at hmem
  | some inner =>
    rw [hcoll, Option.getD_some] at hmem
    constructor
    · simp only [clear_chat_history, hco, hcoll, hmem]
    · simp only [clear_chat_history, hco, hcoll, hmem]
      rw [alookup_aset_self, Option.getD_some]
      exact alookup_aerase_self session_id inner

/-- Witness for C10: a chat under "My KB" is cleared under "my-kb". -/
theorem chat_memory_keyed_by_collection_witness :
    (clear_chat_history
        (chat_with_collection
          { collections := [['k','b','_','m','y','_','k','b']], points := [],
            router := [], chat_histories := [] }
          ['M','y',' ','K','B'] "q" "s1" none).1
        ['m','y','-','k','b'] "s1").2.success = true ∧
    alookup "s1"
      ((alookup (get_collection_name ['m','y','-','k','b'])
        (clear_chat_history
          (chat_with_collection
            { collections := [['k','b','_','m','y','_','k','b']], points := [],
              router := [], chat_histories := [] }
            ['M','y',' ','K','B'] "q" "s1" none).1
          ['m','y','-','k','b'] "s1").1.chat_histories).getD []) = none :=
  chat_memory_keyed_by_collection ['M','y',' ','K','B'] ['m','y','-','k','b']
    { collections := [['k','b','_','m','y','_','k','b']], points := [],
      router := [], chat_histories := [] }
    "q" "s1" none (by decide) (by decide)
